import Mathlib

/-!
Shallow embedding of the tenant / timeline storage layer of the pageserver
(`src/pageserver/src/tenant.rs`).

LSNs are modelled as natural numbers, timeline ids as natural numbers, the
filesystem as lists of names, and fallible Rust functions as `Except`-valued
Lean functions.  Functions whose bodies live in `tenant.rs` are translated
directly from that file; helpers whose bodies live in other files of the
repository (for example `timeline.rs`) are modelled from the specification
and carry a doc comment saying so.
-/

namespace Neon

abbrev Lsn := Nat

abbrev TimelineId := Nat

/-- Decidable equality for `Except`, used to evaluate the embedded
functions on concrete inputs. -/
instance {ε α : Type} [DecidableEq ε] [DecidableEq α] : DecidableEq (Except ε α) :=
  fun a b =>
    match a, b with
    | .ok x, .ok y =>
      if h : x = y then isTrue (by rw [h])
      else isFalse (fun hc => h (by injection hc))
    | .error x, .error y =>
      if h : x = y then isTrue (by rw [h])
      else isFalse (fun hc => h (by injection hc))
    | .ok _, .error _ => isFalse (fun hc => Except.noConfusion hc)
    | .error _, .ok _ => isFalse (fun hc => Except.noConfusion hc)

/-- Per-timeline metadata record (`TimelineMetadata`), with the fields in the
order of `TimelineMetadata::new`. -/
structure TimelineMetadata where
  disk_consistent_lsn : Lsn
  prev_record_lsn : Option Lsn
  ancestor_timeline : Option TimelineId
  ancestor_lsn : Lsn
  latest_gc_cutoff_lsn : Lsn
  initdb_lsn : Lsn
  pg_version : Nat
deriving Repr, DecidableEq

/-- Translation of `merge_local_remote_metadata` (tenant.rs lines 334-385).
The `Bool` in the result mirrors the `bool` of the source function. -/
def merge_local_remote_metadata (loc : Option TimelineMetadata)
    (remote : Option TimelineMetadata) : Except String (TimelineMetadata × Bool) :=
  match loc, remote with
  | none, none => .error "we should have either local metadata or remote"
  | some l, none => .ok (l, true)
  | none, some r => .ok (r, false)
  | some l, some r =>
    let consistent_lsn_cmp := compare l.disk_consistent_lsn r.disk_consistent_lsn
    let gc_cutoff_lsn_cmp := compare l.latest_gc_cutoff_lsn r.latest_gc_cutoff_lsn
    match consistent_lsn_cmp, gc_cutoff_lsn_cmp with
    | .eq, .eq => .ok (l, true)
    | .gt, .gt => .ok (l, true)
    | .gt, .eq => .ok (l, true)
    | .eq, .gt => .ok (l, true)
    | .lt, .lt | .lt, .eq | .eq, .lt | .lt, .gt | .gt, .lt =>
      .error "remote metadata appears to be ahead of local metadata"

/-- Concrete local metadata used to exercise `merge_local_remote_metadata`. -/
def metadataLow : TimelineMetadata :=
  { disk_consistent_lsn := 0x10, prev_record_lsn := none, ancestor_timeline := none,
    ancestor_lsn := 0, latest_gc_cutoff_lsn := 0x10, initdb_lsn := 0, pg_version := 14 }

/-- Concrete remote metadata that is strictly ahead of `metadataLow` in both
`disk_consistent_lsn` and `latest_gc_cutoff_lsn`. -/
def metadataHigh : TimelineMetadata :=
  { disk_consistent_lsn := 0x20, prev_record_lsn := none, ancestor_timeline := none,
    ancestor_lsn := 0, latest_gc_cutoff_lsn := 0x20, initdb_lsn := 0, pg_version := 14 }

/-- Timeline lifecycle states (`pageserver_api::models::TimelineState`). -/
inductive TimelineState where
  | Creating
  | Loading
  | Active
  | Stopping
  | Broken
deriving Repr, DecidableEq

/-- GC information of a timeline (`Timeline::gc_info`): the LSNs pinned by
child branch points plus the planned horizon and PITR cutoffs. -/
structure GcInfo where
  retain_lsns : List Lsn
  horizon_cutoff : Lsn
  pitr_cutoff : Lsn
deriving Repr, DecidableEq

/-- In-memory timeline object, restricted to the fields the claims touch.
The two `Bool` fields are oracles for the success of the disk and network
I/O performed by the flush and compaction paths, whose bodies live in
`timeline.rs` (not among the sources) and are fallible. -/
structure Timeline where
  timeline_id : TimelineId
  state : TimelineState
  ancestor_timeline_id : Option TimelineId
  ancestor_lsn : Lsn
  last_record_lsn : Lsn
  prev_record_lsn : Lsn
  disk_consistent_lsn : Lsn
  latest_gc_cutoff_lsn : Lsn
  initdb_lsn : Lsn
  pg_version : Nat
  gc_info : GcInfo
  flush_ok : Bool
  compact_ok : Bool
deriving Repr, DecidableEq

def Timeline.get_ancestor_timeline_id (tl : Timeline) : Option TimelineId :=
  tl.ancestor_timeline_id

def Timeline.get_ancestor_lsn (tl : Timeline) : Lsn :=
  tl.ancestor_lsn

def Timeline.get_last_record_lsn (tl : Timeline) : Lsn :=
  tl.last_record_lsn

def Timeline.get_latest_gc_cutoff_lsn (tl : Timeline) : Lsn :=
  tl.latest_gc_cutoff_lsn

def Timeline.current_state (tl : Timeline) : TimelineState :=
  tl.state

def Timeline.set_state (tl : Timeline) (s : TimelineState) : Timeline :=
  { tl with state := s }

/-- Tenant lifecycle states (`pageserver_api::models::TenantState`). -/
inductive TenantState where
  | Loading
  | Attaching
  | Activating
  | Active
  | Stopping
  | Broken (reason : String)
deriving Repr, DecidableEq

/-- The tenant: its state watch value and the `timelines` map, modelled as an
association list from timeline id to timeline. -/
structure Tenant where
  state : TenantState
  timelines : List (TimelineId × Timeline)
deriving Repr, DecidableEq

def Tenant.current_state (t : Tenant) : TenantState :=
  t.state

/-- Translation of `Tenant::is_active` (tenant.rs line 1919). -/
def Tenant.is_active (t : Tenant) : Bool :=
  t.state = TenantState.Active

/-- Modelled from the spec: `TimelineWriter::finish_write(lsn)` lives in
`timeline.rs`, which is not among the sources; per the spec it publishes
`last_record_lsn = lsn` and `prev_record_lsn = previous last`. -/
def Timeline.finish_write (tl : Timeline) (lsn : Lsn) : Timeline :=
  { tl with last_record_lsn := lsn, prev_record_lsn := tl.last_record_lsn }

/-- Modelled from the spec: `Timeline::freeze_and_flush` lives in
`timeline.rs`, which is not among the sources.  Per the spec it freezes the
open ephemeral layer at the tip and flushes every frozen layer; after a
successful flush `disk_consistent_lsn` has advanced past everything written
up to `last_record_lsn`.  The flush performs I/O and can fail; `flush_ok`
is the oracle for that outcome, and on failure nothing advances. -/
def Timeline.freeze_and_flush (tl : Timeline) : Except String Timeline :=
  if tl.flush_ok then
    .ok { tl with disk_consistent_lsn := max tl.disk_consistent_lsn tl.last_record_lsn }
  else
    .error "flush failed"

/-- Translation of `Tenant::freeze_and_flush` (tenant.rs lines 1686-1712):
collect the timelines, call the timeline-level `freeze_and_flush` on each
one, log and swallow every per-timeline error, and always return `Ok`. -/
def Tenant.freeze_and_flush (t : Tenant) : Except String Tenant :=
  let timelines_to_flush := t.timelines
  .ok { t with
        timelines := timelines_to_flush.map fun p =>
          match p.2.freeze_and_flush with
          | .ok tl => (p.1, tl)
          | .error _e => p }

/-- Baseline healthy timeline used to build concrete witnesses. -/
def baseTimeline : Timeline :=
  { timeline_id := 1, state := .Active, ancestor_timeline_id := none, ancestor_lsn := 0,
    last_record_lsn := 0, prev_record_lsn := 0, disk_consistent_lsn := 0,
    latest_gc_cutoff_lsn := 0, initdb_lsn := 0, pg_version := 14,
    gc_info := { retain_lsns := [], horizon_cutoff := 0, pitr_cutoff := 0 },
    flush_ok := true, compact_ok := true }

/-- A timeline whose flush I/O fails. -/
def stuckTimeline : Timeline :=
  { baseTimeline with flush_ok := false }

/-- A tenant holding one timeline with an acknowledged write at LSN 5 that
cannot be flushed. -/
def stuckTenant : Tenant :=
  { state := .Active, timelines := [(1, stuckTimeline.finish_write 5)] }

/-- Modelled from the spec: `Timeline::check_lsn_is_in_scope` lives in
`timeline.rs`, which is not among the sources; per the spec a branch start
LSN must be at least the latest GC cutoff of the ancestor, otherwise the
needed data may already have been garbage collected. -/
def Timeline.check_lsn_is_in_scope (_tl : Timeline) (lsn : Lsn)
    (latest_gc_cutoff_lsn : Lsn) : Except String Unit :=
  if lsn < latest_gc_cutoff_lsn then
    .error "LSN is earlier than latest GC horizon"
  else
    .ok ()

/-- Translation of `Tenant::branch_timeline_impl` (tenant.rs lines
2875-2983).  The source holds the tenant-wide `gc_cs` mutex across the whole
body; the lock itself is a concurrency construct and is not part of this
sequential model.  On success the function produces the metadata of the new
branch (the subsequent file creation and upload are not needed by the
claims); on error no branch timeline comes into existence. -/
def Tenant.branch_timeline_impl (_t : Tenant) (src_timeline : Timeline)
    (_dst_id : TimelineId) (start_lsn_arg : Option Lsn) :
    Except String TimelineMetadata :=
  let start_lsn := start_lsn_arg.getD src_timeline.get_last_record_lsn
  let latest_gc_cutoff_lsn := src_timeline.get_latest_gc_cutoff_lsn
  match src_timeline.check_lsn_is_in_scope start_lsn latest_gc_cutoff_lsn with
  | .error e =>
    .error ("invalid branch start lsn: less than latest GC cutoff: " ++ e)
  | .ok () =>
    let cutoff := min src_timeline.gc_info.pitr_cutoff src_timeline.gc_info.horizon_cutoff
    if start_lsn < cutoff then
      .error "invalid branch start lsn: less than planned GC cutoff"
    else
      let src_last := src_timeline.last_record_lsn
      let src_prev := src_timeline.prev_record_lsn
      let dst_prev : Option Lsn := if src_last = start_lsn then some src_prev else none
      .ok { disk_consistent_lsn := start_lsn,
            prev_record_lsn := dst_prev,
            ancestor_timeline := some src_timeline.timeline_id,
            ancestor_lsn := start_lsn,
            latest_gc_cutoff_lsn := src_timeline.latest_gc_cutoff_lsn,
            initdb_lsn := src_timeline.initdb_lsn,
            pg_version := src_timeline.pg_version }

/-- Translation of `DeleteTimelineError` (tenant.rs lines 387-395). -/
inductive DeleteTimelineError where
  | NotFound
  | HasChildren
  | Other (msg : String)
deriving Repr, DecidableEq

/-- Local filesystem state of one tenant, as far as the claims need it:
temporary directories carrying the reserved suffix, uninit-mark files, and
timeline directories, each identified by name. -/
structure Fs where
  temp_dirs : List String
  uninit_marks : List TimelineId
  timeline_dirs : List TimelineId
deriving Repr, DecidableEq

/-- Update the state of the timeline stored under `id` in the map. -/
def setTimelineStateInMap (timelines : List (TimelineId × Timeline))
    (id : TimelineId) (s : TimelineState) : List (TimelineId × Timeline) :=
  timelines.map fun p => if p.1 = id then (p.1, p.2.set_state s) else p

/-- Translation of `Tenant::delete_timeline` (tenant.rs lines 1715-1913).
The synchronous prefix (children check, map lookup, `Creating` check,
transition to `Stopping`) is verbatim; the awaited middle part (walreceiver
shutdown, task shutdown) performs no persistent state change; persisting
the deleted flag in the remote index can fail, which the
`persist_deleted_flag_ok` oracle captures; then the local timeline
directory is removed (a missing directory is tolerated) and the entry is
removed from the map (a concurrently removed entry is tolerated). -/
def Tenant.delete_timeline (t : Tenant) (fs : Fs) (timeline_id : TimelineId)
    (persist_deleted_flag_ok : Bool) : Except DeleteTimelineError (Tenant × Fs) :=
  let children_exist :=
    t.timelines.any fun p => p.2.get_ancestor_timeline_id = some timeline_id
  if children_exist then
    .error .HasChildren
  else
    match t.timelines.lookup timeline_id with
    | none => .error .NotFound
    | some timeline =>
      if timeline.current_state = TimelineState.Creating then
        .error (.Other "timeline is creating")
      else
        let t1 : Tenant :=
          { t with timelines := setTimelineStateInMap t.timelines timeline_id .Stopping }
        if ¬ persist_deleted_flag_ok then
          .error (.Other "failed to persist index part with deleted flag")
        else
          let fs1 : Fs :=
            { fs with timeline_dirs := fs.timeline_dirs.filter (· ≠ timeline_id) }
          let children_exist_after :=
            t1.timelines.any fun p => p.2.get_ancestor_timeline_id = some timeline_id
          if children_exist_after then
            .error (.Other "timeline grew children while we removed layer files")
          else
            .ok ({ t1 with timelines := t1.timelines.filter (·.1 ≠ timeline_id) }, fs1)

/-- Translation of `StartCreatingTimelineError` (tenant.rs lines 169-191).
`AlreadyExists` carries `existing_state`, naming which of the three guards
fired. -/
inductive StartCreatingTimelineError where
  | AlreadyExists (existing_state : String)
  | Other (msg : String)
deriving Repr, DecidableEq

/-- The placeholder timeline inserted by `start_creating_timeline`
(tenant.rs lines 2318-2341): dummy metadata, state `Creating`. -/
def placeholderTimeline (timeline_id : TimelineId) : Timeline :=
  { timeline_id := timeline_id, state := .Creating, ancestor_timeline_id := none,
    ancestor_lsn := 0, last_record_lsn := 0, prev_record_lsn := 0,
    disk_consistent_lsn := 0, latest_gc_cutoff_lsn := 0, initdb_lsn := 0,
    pg_version := 14,
    gc_info := { retain_lsns := [], horizon_cutoff := 0, pitr_cutoff := 0 },
    flush_ok := true, compact_ok := true }

/-- Translation of `Tenant::start_creating_timeline` (tenant.rs lines
2314-2434): check the uninit mark, the timeline directory and the timelines
map; reserve the id by inserting a placeholder timeline in state `Creating`;
re-check the filesystem (in this sequential model nothing changed in
between, so the re-checks pass, mirroring source lines 2397-2399); create
the uninit mark file, rolling the placeholder back out of the map if that
fails.  `create_uninit_mark_ok` is the oracle for the mark-creation I/O. -/
def Tenant.start_creating_timeline (t : Tenant) (fs : Fs) (timeline_id : TimelineId)
    (create_uninit_mark_ok : Bool) : Except StartCreatingTimelineError (Tenant × Fs) :=
  if fs.uninit_marks.contains timeline_id then
    .error (.AlreadyExists "uninit mark file")
  else if fs.timeline_dirs.contains timeline_id then
    .error (.AlreadyExists "timeline directory")
  else
    match t.timelines.lookup timeline_id with
    | some _ => .error (.AlreadyExists "timelines map entry")
    | none =>
      let t1 : Tenant :=
        { t with timelines := (timeline_id, placeholderTimeline timeline_id) :: t.timelines }
      if fs.timeline_dirs.contains timeline_id then
        .error (.AlreadyExists "timeline directory")
      else if fs.uninit_marks.contains timeline_id then
        .error (.AlreadyExists "uninit mark file")
      else if create_uninit_mark_ok then
        .ok (t1, { fs with uninit_marks := timeline_id :: fs.uninit_marks })
      else
        .error (.Other "create uninit mark file")

/-- A directory entry of the timelines directory as seen by `Tenant::load`. -/
inductive DirEntry where
  | temp (name : String)
  | uninitMark (id : TimelineId)
  | timelineDir (id : TimelineId)
deriving Repr, DecidableEq

/-- Predicate mirroring `crate::is_temporary`. -/
def DirEntry.isTemp : DirEntry → Bool
  | .temp _ => true
  | _ => false

/-- Predicate mirroring `crate::is_uninit_mark`. -/
def DirEntry.isUninitMark : DirEntry → Bool
  | .uninitMark _ => true
  | _ => false

/-- The directory listing produced by `std::fs::read_dir` on the timelines
directory. -/
def Fs.read_dir (fs : Fs) : List DirEntry :=
  fs.temp_dirs.map DirEntry.temp ++ fs.uninit_marks.map DirEntry.uninitMark ++
    fs.timeline_dirs.map DirEntry.timelineDir

/-- Translation of `remove_timeline_and_uninit_mark` (tenant.rs lines
3225-3250): remove the timeline directory (a missing directory is
tolerated) and then the uninit mark file itself. -/
def remove_timeline_and_uninit_mark (fs : Fs) (id : TimelineId) : Fs :=
  { fs with timeline_dirs := fs.timeline_dirs.filter (· ≠ id),
            uninit_marks := fs.uninit_marks.filter (· ≠ id) }

/-- One pass of the cleanup loop of `Tenant::load` (tenant.rs lines
1027-1063) over the entries read at the top of the pass: every temporary
directory is removed; every uninit mark triggers
`remove_timeline_and_uninit_mark` for its timeline; the `Bool` records
whether any uninit mark was handled (`removed_unint_timeline`). -/
def loadSweepEntries : Fs → List DirEntry → Fs × Bool
  | fs, [] => (fs, false)
  | fs, .temp n :: rest =>
    loadSweepEntries { fs with temp_dirs := fs.temp_dirs.filter (· ≠ n) } rest
  | fs, .uninitMark id :: rest =>
    let r := loadSweepEntries (remove_timeline_and_uninit_mark fs id) rest
    (r.1, true)
  | fs, .timelineDir _ :: rest => loadSweepEntries fs rest

/-- The cleanup loop of `Tenant::load` (tenant.rs lines 1013-1070): read
the directory, sweep it, and start over whenever an uninit-marked timeline
was removed, else break with the entries just read.  A sweep of a full
listing handles every uninit mark present, so the loop runs at most two
passes; it is written here with the recursion unrolled, and the theorem
`loadSweepEntries_read_dir_no_uninit_marks` below discharges the
assumption. -/
def loadScan (fs : Fs) : Fs × List DirEntry :=
  let entries := fs.read_dir
  let r1 := loadSweepEntries fs entries
  if r1.2 then
    let entries2 := r1.1.read_dir
    let r2 := loadSweepEntries r1.1 entries2
    (r2.1, entries2)
  else
    (r1.1, entries)

/-- Translation of the scan phase of `Tenant::load` (tenant.rs lines
994-1136) up to the per-timeline loading: after the cleanup loop, the
retained entries are asserted to be neither temporary directories nor
uninit marks (a violated assertion is a panic of the source, modelled as an
error) and the surviving timeline directories are exactly the ones whose
metadata is then loaded and whose timelines can enter the timelines map. -/
def Tenant.load_scan_timelines (fs : Fs) : Except String (Fs × List TimelineId) :=
  let scanned := loadScan fs
  if scanned.2.any DirEntry.isTemp then
    .error "assertion failed: temporary directory among retained entries"
  else if scanned.2.any DirEntry.isUninitMark then
    .error "assertion failed: uninit mark among retained entries"
  else
    .ok (scanned.1, scanned.2.filterMap fun e =>
      match e with
      | .timelineDir id => some id
      | _ => none)

/-- Remote `index_part.json` as seen at load time
(`MaybeDeletedIndexPart`): either the live index with its metadata, or the
record that the timeline was deleted. -/
inductive MaybeDeletedIndexPart where
  | indexPart (remote_metadata : TimelineMetadata)
  | deleted
deriving Repr, DecidableEq

/-- Outcome of `RemoteTimelineClient::download_index_file` at the start of
`Tenant::load_local_timeline` (tenant.rs lines 1161-1200), including the
case of a tenant without remote storage. -/
inductive RemoteIndexDownload where
  | noRemoteStorage
  | success (part : MaybeDeletedIndexPart)
  | notFound
  | otherError (e : String)
deriving Repr, DecidableEq

/-- Modelled from the spec: `Timeline::new` lives in `timeline.rs`, which is
not among the sources; the timeline object starts from the persisted
metadata record, with the tip at `disk_consistent_lsn`. -/
def Timeline.ofMetadata (timeline_id : TimelineId) (m : TimelineMetadata) : Timeline :=
  { timeline_id := timeline_id, state := .Loading,
    ancestor_timeline_id := m.ancestor_timeline, ancestor_lsn := m.ancestor_lsn,
    last_record_lsn := m.disk_consistent_lsn,
    prev_record_lsn := m.prev_record_lsn.getD 0,
    disk_consistent_lsn := m.disk_consistent_lsn,
    latest_gc_cutoff_lsn := m.latest_gc_cutoff_lsn, initdb_lsn := m.initdb_lsn,
    pg_version := m.pg_version,
    gc_info := { retain_lsns := [], horizon_cutoff := 0, pitr_cutoff := 0 },
    flush_ok := true, compact_ok := true }

/-- Translation of the metadata handling of `Tenant::timeline_init_and_sync`
(tenant.rs lines 476-619): local and remote metadata must agree on the
ancestor, the two records are merged by `merge_local_remote_metadata`, and
the timeline object is built from the winning metadata.  Layer-map loading,
remote reconciliation and the metadata rewrite are I/O with no bearing on
the claims and are not modelled. -/
def Tenant.timeline_init_and_sync (_t : Tenant) (timeline_id : TimelineId)
    (local_metadata : Option TimelineMetadata)
    (remote_metadata : Option TimelineMetadata) : Except String Timeline :=
  match local_metadata, remote_metadata with
  | some l, some r =>
    if l.ancestor_timeline ≠ r.ancestor_timeline then
      .error "local and remote metadata do not agree on ancestorship"
    else
      match merge_local_remote_metadata (some l) (some r) with
      | .error e => .error e
      | .ok (m, _picked_local) => .ok (Timeline.ofMetadata timeline_id m)
  | l, r =>
    match merge_local_remote_metadata l r with
    | .error e => .error e
    | .ok (m, _picked_local) => .ok (Timeline.ofMetadata timeline_id m)

/-- Translation of `Tenant::load_local_timeline` (tenant.rs lines
1142-1215): download the remote index part; if the deleted flag is set on
the remote, resume the deletion started by `delete_timeline` by removing
the local timeline directory and return `None` so that the timeline is not
loaded; otherwise initialize the timeline from the local and (if present)
remote metadata. -/
def Tenant.load_local_timeline (t : Tenant) (fs : Fs) (timeline_id : TimelineId)
    (local_metadata : TimelineMetadata) (download : RemoteIndexDownload) :
    Except String (Fs × Option Timeline) :=
  match download with
  | .otherError e => .error e
  | .success .deleted =>
    .ok ({ fs with timeline_dirs := fs.timeline_dirs.filter (· ≠ timeline_id) }, none)
  | .success (.indexPart remote_metadata) =>
    match t.timeline_init_and_sync timeline_id (some local_metadata) (some remote_metadata) with
    | .error e => .error e
    | .ok tl => .ok (fs, some tl)
  | .notFound | .noRemoteStorage =>
    match t.timeline_init_and_sync timeline_id (some local_metadata) none with
    | .error e => .error e
    | .ok tl => .ok (fs, some tl)

/-- Translation of the per-timeline step of the loading loop of
`Tenant::load` (tenant.rs lines 1111-1131): load the timeline; when
`load_local_timeline` returns a timeline, insert it into the timelines map
(an already-present entry is a panic of the source); when it returns
`None`, the timeline was deleted on the remote and its local deletion was
finished, so nothing is inserted. -/
def Tenant.load_timeline_step (t : Tenant) (fs : Fs) (timeline_id : TimelineId)
    (local_metadata : TimelineMetadata) (download : RemoteIndexDownload) :
    Except String (Tenant × Fs) :=
  match t.load_local_timeline fs timeline_id local_metadata download with
  | .error e => .error e
  | .ok (fs1, some loaded_timeline) =>
    if (t.timelines.lookup timeline_id).isSome then
      .error "timeline should not be in the map yet, but is"
    else
      .ok ({ t with timelines := (timeline_id, loaded_timeline) :: t.timelines }, fs1)
  | .ok (fs1, none) => .ok (t, fs1)

/-- Result record of one GC iteration (`GcResult`); the claims only need
how many timelines were garbage collected. -/
structure GcResult where
  timelines_gced : Nat
deriving Repr, DecidableEq

/-- Modelled from the spec: `Timeline::update_gc_info` lives in
`timeline.rs`, which is not among the sources; it records the child branch
points and the newly planned horizon and PITR cutoffs in `gc_info`. -/
def Timeline.update_gc_info (tl : Timeline) (branchpoints : List Lsn)
    (cutoff : Lsn) (pitr_cutoff : Lsn) : Timeline :=
  { tl with gc_info :=
      { retain_lsns := branchpoints, horizon_cutoff := cutoff,
        pitr_cutoff := pitr_cutoff } }

/-- Modelled from the spec: `Timeline::gc` lives in `timeline.rs`, which is
not among the sources; it removes the layers that fall fully below the
planned cutoff and publishes the new `latest_gc_cutoff_lsn`.  Layer
bookkeeping is outside this model. -/
def Timeline.gc (tl : Timeline) : Except String (GcResult × Timeline) :=
  let new_gc_cutoff := min tl.gc_info.horizon_cutoff tl.gc_info.pitr_cutoff
  .ok ({ timelines_gced := 1 },
       { tl with latest_gc_cutoff_lsn := max tl.latest_gc_cutoff_lsn new_gc_cutoff })

/-- Does a timeline id match the optional GC target? -/
def matchesTarget (target : Option TimelineId) (id : TimelineId) : Bool :=
  match target with
  | some tgt => id = tgt
  | none => true

/-- Translation of `Tenant::refresh_gc_info_internal` (tenant.rs lines
2696-2782): under the `gc_cs` mutex (a concurrency construct, not part of
this sequential model), fail if the GC target does not exist, collect the
branch points of all (targeted) children, and update the `gc_info` of every
targeted timeline whose `last_record_lsn` is at least `horizon` back
(`checked_sub` in the source); those timelines are the ones to GC.  The
PITR cutoff is resolved from the `pitr` duration by timestamp lookup inside
`Timeline::update_gc_info` (not among the sources); it enters this model as
the `pitr_cutoff` LSN. -/
def Tenant.refresh_gc_info_internal (t : Tenant) (target_timeline_id : Option TimelineId)
    (horizon : Nat) (pitr_cutoff : Lsn) : Except String (Tenant × List TimelineId) :=
  let target_missing :=
    match target_timeline_id with
    | some target => (t.timelines.lookup target).isNone
    | none => false
  if target_missing then
    .error "gc target timeline does not exist"
  else
    let all_branchpoints : List (TimelineId × Lsn) :=
      t.timelines.filterMap fun p =>
        match p.2.get_ancestor_timeline_id with
        | some ancestor_id =>
          match target_timeline_id with
          | some target =>
            if ancestor_id = target then some (ancestor_id, p.2.get_ancestor_lsn) else none
          | none => some (ancestor_id, p.2.get_ancestor_lsn)
        | none => none
    let gc_timeline_ids := t.timelines.filterMap fun p =>
      if matchesTarget target_timeline_id p.1 ∧ horizon ≤ p.2.get_last_record_lsn then
        some p.1
      else
        none
    let updated_timelines := t.timelines.map fun p =>
      if matchesTarget target_timeline_id p.1 ∧ horizon ≤ p.2.get_last_record_lsn then
        let cutoff := p.2.get_last_record_lsn - horizon
        let branchpoints := (all_branchpoints.filter (·.1 = p.1)).map (·.2)
        (p.1, p.2.update_gc_info branchpoints cutoff pitr_cutoff)
      else
        p
    .ok ({ t with timelines := updated_timelines }, gc_timeline_ids)

/-- The per-timeline loop of `Tenant::gc_iteration_internal` (tenant.rs
lines 2660-2668): GC each listed timeline, propagating errors and summing
the results. -/
def gcTimelinesLoop (t : Tenant) (ids : List TimelineId) (totals : GcResult) :
    Except String (GcResult × Tenant) :=
  match ids with
  | [] => .ok (totals, t)
  | id :: rest =>
    match t.timelines.lookup id with
    | none => gcTimelinesLoop t rest totals
    | some tl =>
      match tl.gc with
      | .error e => .error e
      | .ok (result, tl1) =>
        gcTimelinesLoop
          { t with timelines := t.timelines.map fun p => if p.1 = id then (id, tl1) else p }
          rest
          { timelines_gced := totals.timelines_gced + result.timelines_gced }

/-- Translation of `Tenant::gc_iteration_internal` (tenant.rs lines
2627-2672). -/
def Tenant.gc_iteration_internal (t : Tenant) (target_timeline_id : Option TimelineId)
    (horizon : Nat) (pitr_cutoff : Lsn) : Except String (GcResult × Tenant) :=
  match t.refresh_gc_info_internal target_timeline_id horizon pitr_cutoff with
  | .error e => .error e
  | .ok (t1, gc_timelines) => gcTimelinesLoop t1 gc_timelines { timelines_gced := 0 }

/-- Translation of `Tenant::gc_iteration` (tenant.rs lines 1630-1644):
`ensure!(self.is_active())` bails out before any other work when the
tenant is not `Active`. -/
def Tenant.gc_iteration (t : Tenant) (target_timeline_id : Option TimelineId)
    (horizon : Nat) (pitr_cutoff : Lsn) : Except String (GcResult × Tenant) :=
  if ¬ t.is_active then
    .error "Cannot run GC iteration on inactive tenant"
  else
    t.gc_iteration_internal target_timeline_id horizon pitr_cutoff

/-- Modelled from the spec: `Timeline::compact` lives in `timeline.rs`,
which is not among the sources; compaction reshuffles layers and is
invisible to reads; it performs I/O and can fail, which the `compact_ok`
oracle captures. -/
def Timeline.compact (tl : Timeline) : Except String Timeline :=
  if tl.compact_ok then .ok tl else .error "compaction failed"

/-- The per-timeline loop of `Tenant::compaction_iteration` (tenant.rs
lines 1670-1675): compact each timeline, propagating the first error. -/
def compactTimelinesLoop (timelines : List (TimelineId × Timeline)) :
    Except String (List (TimelineId × Timeline)) :=
  match timelines with
  | [] => .ok []
  | p :: rest =>
    match p.2.compact with
    | .error e => .error e
    | .ok tl1 =>
      match compactTimelinesLoop rest with
      | .error e => .error e
      | .ok rest1 => .ok ((p.1, tl1) :: rest1)

/-- Translation of `Tenant::compaction_iteration` (tenant.rs lines
1650-1678): `ensure!(self.is_active())` bails out before any other work
when the tenant is not `Active`; otherwise every timeline is compacted. -/
def Tenant.compaction_iteration (t : Tenant) : Except String Tenant :=
  if ¬ t.is_active then
    .error "Cannot run compaction iteration on inactive tenant"
  else
    match compactTimelinesLoop t.timelines with
    | .error e => .error e
    | .ok tls => .ok { t with timelines := tls }

/-- Translation of `SetStoppingError` (tenant.rs lines 397-400). -/
inductive SetStoppingError where
  | AlreadyStopping
  | Broken
deriving Repr, DecidableEq

/-- Translation of the `wait_for` closure shared by `Tenant::set_stopping`
and `Tenant::set_broken` (tenant.rs lines 1994-2003 and 2067-2076): the
wait completes only once the tenant has left `Loading`, `Attaching` and
`Activating`. -/
def tenantStateWaitDone : TenantState → Bool
  | .Activating | .Loading | .Attaching => false
  | .Active | .Broken _ | .Stopping => true

/-- Translation of the first `send_modify` of `Tenant::activate`
(tenant.rs lines 1928-1941): `Loading` and `Attaching` move to
`Activating`; calling activate in any other state is a panic of the
source, modelled as an error that leaves the state unchanged. -/
def tenantActivateEntry : TenantState → Except String TenantState
  | .Loading | .Attaching => .ok .Activating
  | _ => .error "caller must call activate only on Loading or Attaching tenants"

/-- Translation of the final `send_modify` of `Tenant::activate`
(tenant.rs lines 1960-1981): it asserts that the state is still
`Activating` (set_stopping and set_broken wait for activation to finish)
and publishes `Active`. -/
def tenantActivateFinish : TenantState → Except String TenantState
  | .Activating => .ok .Active
  | _ => .error "assertion failed: expected Activating"

/-- Translation of the `send_if_modified` dispatch of
`Tenant::set_stopping` (tenant.rs lines 2009-2053), reached only after the
wait completed: an `Active` tenant moves to `Stopping` (and its non-broken
timelines are stopped); `Broken` and `Stopping` tenants refuse with an
error and keep their state; the pre-activation states are unreachable
after the wait (a panic of the source, modelled as an error). -/
def tenantSetStoppingDispatch : TenantState → Except String (TenantState × Option SetStoppingError)
  | .Active => .ok (.Stopping, none)
  | .Broken r => .ok (.Broken r, some .Broken)
  | .Stopping => .ok (.Stopping, some .AlreadyStopping)
  | _ => .error "unreachable: the wait ensured activation is over"

/-- Translation of the `send_modify` dispatch of `Tenant::set_broken`
(tenant.rs lines 2081-2106), reached only after the wait completed.
Moving an `Active` tenant to `Broken` is permitted only in testing builds
(`testing` mirrors the `cfg!` check); a `Broken` tenant stays `Broken`
with its original reason; a `Stopping` tenant moves to `Broken`; the
pre-activation states are unreachable after the wait. -/
def tenantSetBrokenDispatch (reason : String) (testing : Bool) :
    TenantState → Except String TenantState
  | .Active =>
    if testing then .ok (.Broken reason)
    else .error "set_broken is not allowed on Active tenants outside testing builds"
  | .Broken r => .ok (.Broken r)
  | .Stopping => .ok (.Broken reason)
  | _ => .error "unreachable: the wait ensured activation is over"

/-- The timeline of `baseTimeline` after `finish_write 5` and a successful
`freeze_and_flush`. -/
def flushedTimeline : Timeline :=
  { baseTimeline with last_record_lsn := 5, disk_consistent_lsn := 5 }

/-- An empty filesystem. -/
def emptyFs : Fs :=
  { temp_dirs := [], uninit_marks := [], timeline_dirs := [] }

/-- A source timeline whose GC cutoffs sit at LSN 0x40, mirroring the
branch-in-GC-ed-range scenario of the spec. -/
def gcAdvancedTimeline : Timeline :=
  { baseTimeline with
      last_record_lsn := 0x50
      latest_gc_cutoff_lsn := 0x40
      gc_info := { retain_lsns := [], horizon_cutoff := 0x40, pitr_cutoff := 0x40 } }

/-- A root timeline with id 1. -/
def parentTimeline : Timeline :=
  { baseTimeline with timeline_id := 1 }

/-- A branch timeline with id 2 whose ancestor is timeline 1. -/
def childTimeline : Timeline :=
  { baseTimeline with timeline_id := 2, ancestor_timeline_id := some 1 }

/-- An active tenant holding the parent and child timelines. -/
def familyTenant : Tenant :=
  { state := .Active, timelines := [(1, parentTimeline), (2, childTimeline)] }

/-- An active tenant holding only a `Creating` placeholder under id 5. -/
def creatingTenant : Tenant :=
  { state := .Active, timelines := [(5, placeholderTimeline 5)] }

/-- A tenant that is still loading, hence not active. -/
def inactiveTenant : Tenant :=
  { state := .Loading, timelines := [] }

/-- A filesystem with one temporary directory, an uninit mark for timeline
3 next to its half-created directory, and a complete timeline 4. -/
def crashedFs : Fs :=
  { temp_dirs := ["basebackup-3.___temp"], uninit_marks := [3], timeline_dirs := [3, 4] }

/-- Does a `start_creating_timeline` outcome carry the `AlreadyExists`
error kind? -/
def isAlreadyExistsError : Except StartCreatingTimelineError (Tenant × Fs) → Bool
  | .error (.AlreadyExists _) => true
  | _ => false

/-- The tenant after a successful `start_creating_timeline` of id 9 on
`familyTenant`. -/
def tenantAfterCreate : Tenant :=
  { familyTenant with
      timelines := (9, placeholderTimeline 9) :: familyTenant.timelines }

/-- The filesystem after a successful `start_creating_timeline` of id 9 on
`emptyFs`. -/
def fsAfterCreate : Fs :=
  { emptyFs with uninit_marks := [9] }

/-- C1 counterexample: the claim says the merge picks the local metadata
unless the remote is strictly ahead in both fields, with only the remaining
divergences fatal; but on a remote that is strictly ahead in both
`disk_consistent_lsn` and `latest_gc_cutoff_lsn` the source still bails out
(the `(Less, Less)` arm of `merge_local_remote_metadata` is in the error
row). -/
theorem merge_errors_even_when_remote_strictly_ahead_in_both :
    metadataLow.disk_consistent_lsn < metadataHigh.disk_consistent_lsn ∧
    metadataLow.latest_gc_cutoff_lsn < metadataHigh.latest_gc_cutoff_lsn ∧
    (merge_local_remote_metadata (some metadataLow) (some metadataHigh)).isOk = false := by
  decide

/-- C1 (amended): when both records exist, `merge_local_remote_metadata`
picks the local metadata exactly when the remote is ahead in neither
`disk_consistent_lsn` nor `latest_gc_cutoff_lsn`; every divergence in which
the remote is strictly ahead in at least one of the two fields — including
strictly ahead in both — is a fatal error. -/
theorem merge_picks_local_iff_remote_not_ahead (l r : TimelineMetadata) :
    (r.disk_consistent_lsn ≤ l.disk_consistent_lsn ∧
        r.latest_gc_cutoff_lsn ≤ l.latest_gc_cutoff_lsn →
      merge_local_remote_metadata (some l) (some r) = .ok (l, true)) ∧
    (l.disk_consistent_lsn < r.disk_consistent_lsn ∨
        l.latest_gc_cutoff_lsn < r.latest_gc_cutoff_lsn →
      (merge_local_remote_metadata (some l) (some r)).isOk = false) := by
  constructor
  · rintro ⟨hA, hB⟩
    have e1 : compare l.disk_consistent_lsn r.disk_consistent_lsn = .eq ∨
        compare l.disk_consistent_lsn r.disk_consistent_lsn = .gt := by
      rcases Nat.eq_or_lt_of_le hA with h | h
      · exact .inl (Nat.compare_eq_eq.mpr h.symm)
      · exact .inr (Nat.compare_eq_gt.mpr h)
    have e2 : compare l.latest_gc_cutoff_lsn r.latest_gc_cutoff_lsn = .eq ∨
        compare l.latest_gc_cutoff_lsn r.latest_gc_cutoff_lsn = .gt := by
      rcases Nat.eq_or_lt_of_le hB with h | h
      · exact .inl (Nat.compare_eq_eq.mpr h.symm)
      · exact .inr (Nat.compare_eq_gt.mpr h)
    rcases e1 with e1 | e1 <;> rcases e2 with e2 | e2 <;>
      simp only [merge_local_remote_metadata, e1, e2]
  · rintro (h | h)
    · have e1 : compare l.disk_consistent_lsn r.disk_consistent_lsn = .lt :=
        Nat.compare_eq_lt.mpr h
      rcases Nat.lt_trichotomy l.latest_gc_cutoff_lsn r.latest_gc_cutoff_lsn with h2 | h2 | h2
      · simp only [merge_local_remote_metadata, e1, Nat.compare_eq_lt.mpr h2]; rfl
      · simp only [merge_local_remote_metadata, e1, Nat.compare_eq_eq.mpr h2]; rfl
      · simp only [merge_local_remote_metadata, e1, Nat.compare_eq_gt.mpr h2]; rfl
    · have e2 : compare l.latest_gc_cutoff_lsn r.latest_gc_cutoff_lsn = .lt :=
        Nat.compare_eq_lt.mpr h
      rcases Nat.lt_trichotomy l.disk_consistent_lsn r.disk_consistent_lsn with h1 | h1 | h1
      · simp only [merge_local_remote_metadata, e2, Nat.compare_eq_lt.mpr h1]; rfl
      · simp only [merge_local_remote_metadata, e2, Nat.compare_eq_eq.mpr h1]; rfl
      · simp only [merge_local_remote_metadata, e2, Nat.compare_eq_gt.mpr h1]; rfl

/-- Witness for the amended C1 theorem at concrete metadata records. -/
theorem merge_picks_local_iff_remote_not_ahead_witness :
    merge_local_remote_metadata (some metadataHigh) (some metadataLow) =
      .ok (metadataHigh, true) ∧
    (merge_local_remote_metadata (some metadataLow) (some metadataHigh)).isOk = false :=
  ⟨(merge_picks_local_iff_remote_not_ahead metadataHigh metadataLow).1
      ⟨by decide, by decide⟩,
   (merge_picks_local_iff_remote_not_ahead metadataLow metadataHigh).2
      (Or.inl (by decide))⟩

/-- C2 counterexample: `stuckTenant` has one timeline with an acknowledged
`finish_write` at LSN 5 whose flush I/O fails; the tenant-level
`freeze_and_flush` still returns `Ok` (the per-timeline error is logged and
swallowed, tenant.rs lines 1699-1711), leaving `disk_consistent_lsn = 0`
below the acknowledged LSN 5. -/
theorem tenant_freeze_and_flush_ok_despite_unflushed_write :
    Tenant.freeze_and_flush stuckTenant = .ok stuckTenant ∧
    (stuckTenant.timelines.lookup 1).map Timeline.last_record_lsn = some 5 ∧
    (stuckTenant.timelines.lookup 1).map Timeline.disk_consistent_lsn = some 0 :=
  ⟨rfl, rfl, rfl⟩

/-- C2 (amended): the flush guarantee holds per timeline: a
`finish_write(L)` followed by a successful return of that same timeline's
`freeze_and_flush` leaves `disk_consistent_lsn ≥ L`.  The tenant-level
`freeze_and_flush` returning `Ok` does not imply this, because it swallows
per-timeline flush errors. -/
theorem timeline_freeze_and_flush_advances_disk_consistent_lsn
    (tl tl' : Timeline) (lsn : Lsn)
    (h : (tl.finish_write lsn).freeze_and_flush = .ok tl') :
    lsn ≤ tl'.disk_consistent_lsn := by
  unfold Timeline.freeze_and_flush Timeline.finish_write at h
  split at h
  · cases h
    simp only []
    exact Nat.le_max_right _ _
  · cases h

/-- Witness for the amended C2 theorem on a timeline whose flush
succeeds. -/
theorem timeline_freeze_and_flush_advances_disk_consistent_lsn_witness :
    5 ≤ flushedTimeline.disk_consistent_lsn :=
  timeline_freeze_and_flush_advances_disk_consistent_lsn baseTimeline flushedTimeline 5
    (by decide)

/-- C3: a branch whose start LSN lies below the ancestor's
`latest_gc_cutoff_lsn` or below the planned GC cutoff
(`min(pitr_cutoff, horizon_cutoff)`) is rejected by
`branch_timeline_impl` with an error whose message starts with
"invalid branch start lsn", and no branch metadata is produced. -/
theorem branch_timeline_rejects_start_below_cutoffs
    (t : Tenant) (src : Timeline) (dst_id : TimelineId) (start_lsn : Lsn)
    (h : start_lsn < src.latest_gc_cutoff_lsn ∨
        start_lsn < min src.gc_info.pitr_cutoff src.gc_info.horizon_cutoff) :
    ∃ rest, Tenant.branch_timeline_impl t src dst_id (some start_lsn) =
      .error ("invalid branch start lsn" ++ rest) := by
  simp only [Tenant.branch_timeline_impl, Timeline.check_lsn_is_in_scope,
    Timeline.get_latest_gc_cutoff_lsn, Timeline.get_last_record_lsn, Option.getD_some]
  by_cases h1 : start_lsn < src.latest_gc_cutoff_lsn
  · rw [if_pos h1]
    exact ⟨": less than latest GC cutoff: LSN is earlier than latest GC horizon", rfl⟩
  · rw [if_neg h1]
    rcases h with h | h
    · exact absurd h h1
    · rw [if_pos h]
      exact ⟨": less than planned GC cutoff", rfl⟩

/-- Witness for C3: branching at 0x25 below a GC cutoff of 0x40 fails. -/
theorem branch_timeline_rejects_start_below_cutoffs_witness :
    (Tenant.branch_timeline_impl familyTenant gcAdvancedTimeline 7 (some 0x25)).isOk = false := by
  obtain ⟨rest, hmsg⟩ :=
    branch_timeline_rejects_start_below_cutoffs familyTenant gcAdvancedTimeline 7 0x25
      (Or.inl (by decide))
  rw [hmsg]
  rfl

/-- C4: when any timeline of the tenant has the target as its ancestor,
`delete_timeline` returns `HasChildren` synchronously: the children check
runs before the lookup, before the transition to `Stopping`, and before
any file removal, so nothing changes. -/
theorem delete_timeline_with_children_rejected
    (t : Tenant) (fs : Fs) (timeline_id : TimelineId) (persist_ok : Bool)
    (h : ∃ p ∈ t.timelines, p.2.get_ancestor_timeline_id = some timeline_id) :
    Tenant.delete_timeline t fs timeline_id persist_ok = .error .HasChildren := by
  have hany :
      (t.timelines.any fun p => p.2.get_ancestor_timeline_id = some timeline_id) = true := by
    rw [List.any_eq_true]
    obtain ⟨p, hp, he⟩ := h
    exact ⟨p, hp, by simp [he]⟩
  simp [Tenant.delete_timeline, hany]

/-- Witness for C4: deleting timeline 1 while timeline 2 branches off it. -/
theorem delete_timeline_with_children_rejected_witness :
    Tenant.delete_timeline familyTenant emptyFs 1 true = .error .HasChildren :=
  delete_timeline_with_children_rejected familyTenant emptyFs 1 true
    ⟨(2, childTimeline), by decide, by decide⟩

/-- C10: deleting a timeline that is present in the map but still in state
`Creating` (the placeholder inserted during creation) is rejected with the
"timeline is creating" error, which is distinct from `NotFound` and
`HasChildren`, before any deletion work happens. -/
theorem delete_timeline_rejects_creating_placeholder
    (t : Tenant) (fs : Fs) (timeline_id : TimelineId) (persist_ok : Bool) (tl : Timeline)
    (hnochild : ∀ p ∈ t.timelines, p.2.get_ancestor_timeline_id ≠ some timeline_id)
    (hfind : t.timelines.lookup timeline_id = some tl)
    (hstate : tl.current_state = TimelineState.Creating) :
    Tenant.delete_timeline t fs timeline_id persist_ok =
      .error (.Other "timeline is creating") ∧
    DeleteTimelineError.Other "timeline is creating" ≠ DeleteTimelineError.NotFound ∧
    DeleteTimelineError.Other "timeline is creating" ≠ DeleteTimelineError.HasChildren := by
  refine ⟨?_, by simp, by simp⟩
  have hany :
      (t.timelines.any fun p => p.2.get_ancestor_timeline_id = some timeline_id) = false := by
    rw [List.any_eq_false]
    intro p hp
    simp [hnochild p hp]
  simp [Tenant.delete_timeline, hany, hfind, hstate]

/-- Witness for C10: deleting the `Creating` placeholder of id 5. -/
theorem delete_timeline_rejects_creating_placeholder_witness :
    Tenant.delete_timeline creatingTenant emptyFs 5 true =
      .error (.Other "timeline is creating") :=
  (delete_timeline_rejects_creating_placeholder creatingTenant emptyFs 5 true
      (placeholderTimeline 5) (by decide) (by decide) (by decide)).1

/-- C8: on a tenant that is not `Active`, both `gc_iteration` and
`compaction_iteration` bail out with an error before touching any
timeline, so no garbage collection and no compaction happens and no state
changes. -/
theorem gc_and_compaction_bail_on_inactive_tenant
    (t : Tenant) (target : Option TimelineId) (horizon : Nat) (pitr_cutoff : Lsn)
    (h : t.state ≠ TenantState.Active) :
    Tenant.gc_iteration t target horizon pitr_cutoff =
      .error "Cannot run GC iteration on inactive tenant" ∧
    Tenant.compaction_iteration t =
      .error "Cannot run compaction iteration on inactive tenant" := by
  have hb : t.is_active = false := by
    simp [Tenant.is_active, h]
  constructor
  · simp [Tenant.gc_iteration, hb]
  · simp [Tenant.compaction_iteration, hb]

/-- Witness for C8 on a tenant still in `Loading`. -/
theorem gc_and_compaction_bail_on_inactive_tenant_witness :
    Tenant.gc_iteration inactiveTenant none 0 0 =
      .error "Cannot run GC iteration on inactive tenant" ∧
    Tenant.compaction_iteration inactiveTenant =
      .error "Cannot run compaction iteration on inactive tenant" :=
  gc_and_compaction_bail_on_inactive_tenant inactiveTenant none 0 0 (by decide)

/-- C9: the tenant state machine follows
`Loading|Attaching → Activating → Active → Stopping`, with `Broken` as a
terminal alternative: `activate` enters `Activating` only from `Loading`
or `Attaching` and publishes `Active` only from `Activating`; the wait of
`set_stopping` and `set_broken` completes exactly when the tenant has left
`Loading`, `Attaching` and `Activating`, and their dispatches treat those
states as unreachable; no operation moves a tenant out of `Stopping` back
to `Active`, and no operation moves a tenant out of `Broken`. -/
theorem tenant_state_machine_lifecycle
    (s s1 : TenantState) (r r1 : String) (testing : Bool) :
    (tenantActivateEntry s = .ok s1 →
      (s = .Loading ∨ s = .Attaching) ∧ s1 = .Activating) ∧
    (tenantActivateFinish s = .ok s1 → s = .Activating ∧ s1 = .Active) ∧
    (tenantStateWaitDone s = false ↔
      s = .Loading ∨ s = .Attaching ∨ s = .Activating) ∧
    (tenantSetStoppingDispatch .Activating).isOk = false ∧
    (tenantSetBrokenDispatch r testing .Activating).isOk = false ∧
    tenantSetStoppingDispatch .Stopping = .ok (.Stopping, some .AlreadyStopping) ∧
    tenantSetBrokenDispatch r testing .Stopping = .ok (.Broken r) ∧
    (tenantActivateEntry .Stopping).isOk = false ∧
    (tenantActivateFinish .Stopping).isOk = false ∧
    tenantSetStoppingDispatch (.Broken r1) = .ok (.Broken r1, some .Broken) ∧
    tenantSetBrokenDispatch r testing (.Broken r1) = .ok (.Broken r1) ∧
    (tenantActivateEntry (.Broken r1)).isOk = false ∧
    (tenantActivateFinish (.Broken r1)).isOk = false := by
  refine ⟨?_, ?_, ?_, rfl, rfl, rfl, rfl, rfl, rfl, rfl, rfl, rfl, rfl⟩
  · intro hok
    cases s <;> simp [tenantActivateEntry] at hok
    all_goals (subst hok; simp)
  · intro hok
    cases s <;> simp [tenantActivateFinish] at hok
    all_goals (subst hok; simp)
  · cases s <;> simp [tenantStateWaitDone]

/-- Witness for C9: activating a `Loading` tenant reaches `Activating`,
and finishing activation reaches `Active`. -/
theorem tenant_state_machine_lifecycle_witness :
    ((TenantState.Loading = TenantState.Loading ∨
        TenantState.Loading = TenantState.Attaching) ∧
      TenantState.Activating = TenantState.Activating) ∧
    (TenantState.Activating = TenantState.Activating ∧
      TenantState.Active = TenantState.Active) :=
  ⟨(tenant_state_machine_lifecycle .Loading .Activating "fsync failed" "oops" true).1 rfl,
   (tenant_state_machine_lifecycle .Activating .Active "fsync failed" "oops" true).2.1 rfl⟩

/-- C5: creating a timeline whose id already exists — as a timelines-map
entry, a timeline directory, or an uninit-mark file — fails with
`AlreadyExists` before any state is changed; and after a successful
`start_creating_timeline`, a second call for the same id fails with
`AlreadyExists`, so of two racing creations exactly one can win (the map
insert under the `timelines` lock is the linearization point). -/
theorem start_creating_timeline_enforces_uniqueness
    (t : Tenant) (fs : Fs) (timeline_id : TimelineId) (mark_ok : Bool) :
    ((t.timelines.lookup timeline_id).isSome = true ∨
        fs.timeline_dirs.contains timeline_id = true ∨
        fs.uninit_marks.contains timeline_id = true →
      ∃ s, Tenant.start_creating_timeline t fs timeline_id mark_ok =
        .error (.AlreadyExists s)) ∧
    (∀ t1 fs1 mark_ok1,
      Tenant.start_creating_timeline t fs timeline_id mark_ok = .ok (t1, fs1) →
      ∃ s, Tenant.start_creating_timeline t1 fs1 timeline_id mark_ok1 =
        .error (.AlreadyExists s)) := by
  constructor
  · intro h
    simp only [Tenant.start_creating_timeline]
    by_cases hm : fs.uninit_marks.contains timeline_id = true
    · rw [if_pos hm]
      exact ⟨_, rfl⟩
    · rw [if_neg hm]
      by_cases hd : fs.timeline_dirs.contains timeline_id = true
      · rw [if_pos hd]
        exact ⟨_, rfl⟩
      · rw [if_neg hd]
        have hl : (t.timelines.lookup timeline_id).isSome = true := by
          rcases h with h | h | h
          · exact h
          · exact absurd h hd
          · exact absurd h hm
        obtain ⟨tl, htl⟩ := Option.isSome_iff_exists.mp hl
        rw [htl]
        exact ⟨_, rfl⟩
  · intro t1 fs1 mark_ok1 hok
    simp only [Tenant.start_creating_timeline] at hok
    split at hok
    · simp at hok
    · split at hok
      · simp at hok
      · split at hok
        · simp at hok
        · split at hok
          · simp only [Except.ok.injEq, Prod.mk.injEq] at hok
            obtain ⟨ht1, hf1⟩ := hok
            subst ht1
            subst hf1
            refine ⟨"uninit mark file", ?_⟩
            simp [Tenant.start_creating_timeline]
          · simp at hok

/-- Witness for C5: creating id 1, which `familyTenant` already holds, is
rejected; and after winning a creation of id 9, a second creation of id 9
is rejected. -/
theorem start_creating_timeline_enforces_uniqueness_witness :
    isAlreadyExistsError (Tenant.start_creating_timeline familyTenant emptyFs 1 true) = true ∧
    isAlreadyExistsError
      (Tenant.start_creating_timeline tenantAfterCreate fsAfterCreate 9 true) = true := by
  constructor
  · obtain ⟨s, hs⟩ :=
      (start_creating_timeline_enforces_uniqueness familyTenant emptyFs 1 true).1
        (Or.inl (by decide))
    rw [hs]
    rfl
  · obtain ⟨s, hs⟩ :=
      (start_creating_timeline_enforces_uniqueness familyTenant emptyFs 9 true).2
        tenantAfterCreate fsAfterCreate true (by decide)
    rw [hs]
    rfl

/-- Membership in the temporary directories surviving one sweep pass. -/
theorem loadSweepEntries_temp_mem (es : List DirEntry) (fs : Fs) (n : String) :
    n ∈ (loadSweepEntries fs es).1.temp_dirs ↔
      n ∈ fs.temp_dirs ∧ DirEntry.temp n ∉ es := by
  induction es generalizing fs with
  | nil => simp [loadSweepEntries]
  | cons e rest ih =>
    cases e with
    | temp m =>
      simp [loadSweepEntries, ih, List.mem_filter]
      tauto
    | uninitMark id =>
      simp [loadSweepEntries, ih, remove_timeline_and_uninit_mark]
    | timelineDir id =>
      simp [loadSweepEntries, ih]

/-- Membership in the uninit marks surviving one sweep pass. -/
theorem loadSweepEntries_mark_mem (es : List DirEntry) (fs : Fs) (m : TimelineId) :
    m ∈ (loadSweepEntries fs es).1.uninit_marks ↔
      m ∈ fs.uninit_marks ∧ DirEntry.uninitMark m ∉ es := by
  induction es generalizing fs with
  | nil => simp [loadSweepEntries]
  | cons e rest ih =>
    cases e with
    | temp n =>
      simp [loadSweepEntries, ih]
    | uninitMark id =>
      simp [loadSweepEntries, ih, remove_timeline_and_uninit_mark, List.mem_filter]
      tauto
    | timelineDir id =>
      simp [loadSweepEntries, ih]

/-- Membership in the timeline directories surviving one sweep pass. -/
theorem loadSweepEntries_dir_mem (es : List DirEntry) (fs : Fs) (d : TimelineId) :
    d ∈ (loadSweepEntries fs es).1.timeline_dirs ↔
      d ∈ fs.timeline_dirs ∧ DirEntry.uninitMark d ∉ es := by
  induction es generalizing fs with
  | nil => simp [loadSweepEntries]
  | cons e rest ih =>
    cases e with
    | temp n =>
      simp [loadSweepEntries, ih]
    | uninitMark id =>
      simp [loadSweepEntries, ih, remove_timeline_and_uninit_mark, List.mem_filter]
      tauto
    | timelineDir id =>
      simp [loadSweepEntries, ih]

/-- The sweep reports a removal exactly when the entries held an uninit
mark. -/
theorem loadSweepEntries_removed_flag (es : List DirEntry) (fs : Fs) :
    (loadSweepEntries fs es).2 = es.any DirEntry.isUninitMark := by
  induction es generalizing fs with
  | nil => simp [loadSweepEntries]
  | cons e rest ih =>
    cases e <;> simp [loadSweepEntries, ih, DirEntry.isUninitMark]

/-- A temporary directory is listed by `read_dir` while it exists. -/
theorem mem_read_dir_temp (fs : Fs) (n : String) :
    DirEntry.temp n ∈ fs.read_dir ↔ n ∈ fs.temp_dirs := by
  simp [Fs.read_dir]

/-- An uninit mark is listed by `read_dir` while it exists. -/
theorem mem_read_dir_mark (fs : Fs) (m : TimelineId) :
    DirEntry.uninitMark m ∈ fs.read_dir ↔ m ∈ fs.uninit_marks := by
  simp [Fs.read_dir]

/-- A timeline directory is listed by `read_dir` while it exists. -/
theorem mem_read_dir_dir (fs : Fs) (d : TimelineId) :
    DirEntry.timelineDir d ∈ fs.read_dir ↔ d ∈ fs.timeline_dirs := by
  simp [Fs.read_dir]

/-- Sweeping a full directory listing deletes every temporary directory. -/
theorem loadSweepEntries_read_dir_temp_dirs (fs : Fs) :
    (loadSweepEntries fs fs.read_dir).1.temp_dirs = [] := by
  rw [List.eq_nil_iff_forall_not_mem]
  intro n hn
  rw [loadSweepEntries_temp_mem] at hn
  exact hn.2 ((mem_read_dir_temp fs n).mpr hn.1)

/-- Sweeping a full directory listing deletes every uninit mark. -/
theorem loadSweepEntries_read_dir_no_uninit_marks (fs : Fs) :
    (loadSweepEntries fs fs.read_dir).1.uninit_marks = [] := by
  rw [List.eq_nil_iff_forall_not_mem]
  intro m hm
  rw [loadSweepEntries_mark_mem] at hm
  exact hm.2 ((mem_read_dir_mark fs m).mpr hm.1)

/-- A timeline directory surviving a sweep of a full listing was present
before and had no uninit mark. -/
theorem loadSweepEntries_read_dir_dir_mem (fs : Fs) (d : TimelineId)
    (hd : d ∈ (loadSweepEntries fs fs.read_dir).1.timeline_dirs) :
    d ∈ fs.timeline_dirs ∧ d ∉ fs.uninit_marks := by
  rw [loadSweepEntries_dir_mem] at hd
  exact ⟨hd.1, fun hm => hd.2 ((mem_read_dir_mark fs d).mpr hm)⟩

/-- After the cleanup loop of `Tenant::load`, no temporary directory and no
uninit mark remains, and every surviving timeline directory had no uninit
mark to begin with. -/
theorem loadScan_state (fs : Fs) :
    (loadScan fs).1.temp_dirs = [] ∧
    (loadScan fs).1.uninit_marks = [] ∧
    (∀ d, d ∈ (loadScan fs).1.timeline_dirs →
      d ∈ fs.timeline_dirs ∧ d ∉ fs.uninit_marks) := by
  simp only [loadScan]
  split
  · refine ⟨loadSweepEntries_read_dir_temp_dirs _,
      loadSweepEntries_read_dir_no_uninit_marks _, fun d hd => ?_⟩
    have h1 := loadSweepEntries_read_dir_dir_mem _ d hd
    exact loadSweepEntries_read_dir_dir_mem fs d h1.1
  · exact ⟨loadSweepEntries_read_dir_temp_dirs _,
      loadSweepEntries_read_dir_no_uninit_marks _,
      fun d hd => loadSweepEntries_read_dir_dir_mem fs d hd⟩

/-- A timeline directory among the retained entries of the cleanup loop
never belongs to a timeline that had an uninit mark. -/
theorem loadScan_entries_dir (fs : Fs) (id : TimelineId)
    (hmem : DirEntry.timelineDir id ∈ (loadScan fs).2)
    (hmark : id ∈ fs.uninit_marks) : False := by
  simp only [loadScan] at hmem
  split at hmem
  · rw [mem_read_dir_dir] at hmem
    have h1 := loadSweepEntries_read_dir_dir_mem fs id hmem
    exact h1.2 hmark
  · rename_i hflag
    have h2 := loadSweepEntries_removed_flag fs.read_dir fs
    rw [h2] at hflag
    have h3 : fs.read_dir.any DirEntry.isUninitMark = true := by
      rw [List.any_eq_true]
      exact ⟨DirEntry.uninitMark id, (mem_read_dir_mark fs id).mpr hmark, rfl⟩
    exact hflag h3

/-- C6: at tenant load, the cleanup loop deletes every temporary directory
with the reserved suffix and, for every uninit mark, both the marked
timeline directory and the marker itself, before any timeline is loaded;
consequently no timeline that had an uninit mark is among the timelines
the load then brings into the timelines map. -/
theorem load_cleans_partial_timelines (fs : Fs) :
    (loadScan fs).1.temp_dirs = [] ∧
    (loadScan fs).1.uninit_marks = [] ∧
    (∀ id ∈ fs.uninit_marks, id ∉ (loadScan fs).1.timeline_dirs) ∧
    (∀ fs1 loaded, Tenant.load_scan_timelines fs = .ok (fs1, loaded) →
      ∀ id ∈ fs.uninit_marks, id ∉ loaded) := by
  obtain ⟨h1, h2, h3⟩ := loadScan_state fs
  refine ⟨h1, h2, fun tid htid hdir => (h3 tid hdir).2 htid, ?_⟩
  intro fs1 loaded hok tid htid hload
  simp only [Tenant.load_scan_timelines] at hok
  split at hok
  · simp at hok
  · split at hok
    · simp at hok
    · simp only [Except.ok.injEq, Prod.mk.injEq] at hok
      obtain ⟨hfs1, hloaded⟩ := hok
      subst hloaded
      rw [List.mem_filterMap] at hload
      obtain ⟨e, he, hmatch⟩ := hload
      cases e with
      | temp n => simp at hmatch
      | uninitMark m => simp at hmatch
      | timelineDir d =>
        simp only [Option.some.injEq] at hmatch
        rw [hmatch] at he
        exact loadScan_entries_dir fs tid he htid

/-- Witness for C6 on a crashed filesystem: the temporary directory and
the half-created timeline 3 are cleaned, and only timeline 4 is loaded. -/
theorem load_cleans_partial_timelines_witness :
    (loadScan crashedFs).1.temp_dirs = [] ∧
    3 ∉ (loadScan crashedFs).1.timeline_dirs ∧
    3 ∉ ([4] : List TimelineId) :=
  ⟨(load_cleans_partial_timelines crashedFs).1,
   (load_cleans_partial_timelines crashedFs).2.2.1 3 (by decide),
   (load_cleans_partial_timelines crashedFs).2.2.2
     { temp_dirs := [], uninit_marks := [], timeline_dirs := [4] } [4] (by decide) 3
     (by decide)⟩

/-- C7: when the remote index part of a timeline carries the deleted flag
at load time, `load_local_timeline` resumes the interrupted deletion: the
local timeline directory is removed, no error is raised, and the caller
inserts nothing into the timelines map (the tenant is returned
unchanged). -/
theorem load_resumes_deletion_when_remote_deleted
    (t : Tenant) (fs : Fs) (timeline_id : TimelineId)
    (local_metadata : TimelineMetadata) :
    Tenant.load_timeline_step t fs timeline_id local_metadata (.success .deleted) =
      .ok (t, { fs with timeline_dirs := fs.timeline_dirs.filter (· ≠ timeline_id) }) :=
  rfl

end Neon
